import Mathlib

/-!
Verification of the `repos` Python wrapper (`src/repos/__init__.py`).

The module under analysis has four pieces:

* `get_script_path` — resolves a script name to a filesystem path, trying a
  packaged-resource lookup first and falling back to a path relative to the
  module's own directory, both under the fixed `scripts` subdirectory;
* `run_script` — best-effort `chmod` of the resolved script (failures are
  swallowed), then spawns the script as a child process, raising
  `CalledProcessError` carrying the child's exit code when it is non-zero;
* the argument builders `setup` and `run` — translate keyword parameters
  into an argv tail for the delegated shell scripts;
* `main` — the CLI dispatch entry point.

The embedding below is a direct translation of that code.  The external
world (filesystem, `importlib.resources` availability, the child process's
exit code) is passed in as an explicit environment `Env`; the sequence of
imperative `append`/`extend` calls building a Python list is rendered as
list concatenation in the same order.  Python argument lists may contain
non-string values (the module appends the literal `False` in one branch),
so argv elements are modelled by `PyVal`, covering strings and booleans.
-/

namespace Repos

/-- An element of a Python argument list built by the wrappers: a string
token, or a raw boolean (the code can place the literal `False` in the
list). -/
inductive PyVal where
  | str (s : String)
  | bool (b : Bool)
deriving DecidableEq

/-- Named parameters of the `setup` builder, with the Python defaults.
`devcontainer` is `Optional[Union[str, List[str]]]`; `debug_file` is
`Optional[Union[bool, str]]`. -/
structure SetupConfig where
  file : Option String := none
  public : Bool := false
  codespaces : Bool := false
  devcontainer : Option (Sum String (List String)) := none
  permissions : Option String := none
  tool : Option String := none
  debug : Bool := false
  debug_file : Option (Sum Bool String) := none

/-- The argv tail built by `setup` from its keyword parameters, followed by
the trailing raw arguments.  Each `++` block corresponds to one
`if`-guarded `append`/`extend` in the source, in source order. -/
def setup (c : SetupConfig) (args : List PyVal) : List PyVal :=
  (match c.file with
    | some f => [PyVal.str "-f", PyVal.str f]
    | none => [])
  ++ (if c.public then [PyVal.str "--public"] else [])
  ++ (if c.codespaces then [PyVal.str "--codespaces"] else [])
  ++ (match c.devcontainer with
    | some (Sum.inl s) =>
        [s].flatMap (fun dc => [PyVal.str "-d", PyVal.str dc])
    | some (Sum.inr l) =>
        l.flatMap (fun dc => [PyVal.str "-d", PyVal.str dc])
    | none => [])
  ++ (match c.permissions with
    | some p => [PyVal.str "--permissions", PyVal.str p]
    | none => [])
  ++ (match c.tool with
    | some t => [PyVal.str "-t", PyVal.str t]
    | none => [])
  ++ (if c.debug then [PyVal.str "--debug"] else [])
  ++ (match c.debug_file with
    | some (Sum.inl true) => [PyVal.str "--debug-file"]
    | some (Sum.inl false) => [PyVal.str "--debug-file", PyVal.bool false]
    | some (Sum.inr s) => [PyVal.str "--debug-file", PyVal.str s]
    | none => [])
  ++ args

/-- Named parameters of the `run` builder, with the Python defaults.
`incl` and `excl` model the Python parameters `include` and `exclude`
(renamed because `include` is reserved in Lean); both are
`Optional[Union[str, List[str]]]`. -/
structure RunConfig where
  file : Option String := none
  script : Option String := none
  incl : Option (Sum String (List String)) := none
  excl : Option (Sum String (List String)) := none
  ensure_setup : Bool := false
  skip_deps : Bool := false
  dry_run : Bool := false
  verbose : Bool := false
  continue_on_error : Bool := false

/-- The argv tail built by `run` from its keyword parameters, followed by
the trailing raw arguments, in source order. -/
def run (c : RunConfig) (args : List PyVal) : List PyVal :=
  (match c.file with
    | some f => [PyVal.str "-f", PyVal.str f]
    | none => [])
  ++ (match c.script with
    | some s => [PyVal.str "--script", PyVal.str s]
    | none => [])
  ++ (match c.incl with
    | some (Sum.inl s) => [PyVal.str "-i", PyVal.str s]
    | some (Sum.inr l) => [PyVal.str "-i", PyVal.str (String.intercalate "," l)]
    | none => [])
  ++ (match c.excl with
    | some (Sum.inl s) => [PyVal.str "-e", PyVal.str s]
    | some (Sum.inr l) => [PyVal.str "-e", PyVal.str (String.intercalate "," l)]
    | none => [])
  ++ (if c.ensure_setup then [PyVal.str "--ensure-setup"] else [])
  ++ (if c.skip_deps then [PyVal.str "-d"] else [])
  ++ (if c.dry_run then [PyVal.str "-n"] else [])
  ++ (if c.verbose then [PyVal.str "-v"] else [])
  ++ (if c.continue_on_error then [PyVal.str "--continue-on-error"] else [])
  ++ args

/-- The external world as seen by the locator and the process delegate:
whether the `importlib.resources` lookup machinery is available (and, if
so, the package root it reports), which paths are existing regular files,
the module's own directory, whether `os.chmod` succeeds, and the exit code
of the child process as a function of the spawned command. -/
structure Env where
  resource_root : Option String
  fs_is_file : String → Bool
  module_dir : String
  chmod_ok : Bool
  child_exit : String → List String → Nat

/-- Python's `FileNotFoundError` raised by `get_script_path`; it carries
the attempted script name. -/
structure FileNotFoundError where
  script_name : String
deriving DecidableEq

/-- The path tried by the packaged-resource lookup:
`files('repos').joinpath('scripts', script_name)`. -/
def resource_path (root script_name : String) : String :=
  root ++ "/scripts/" ++ script_name

/-- The fallback path tried relative to the module's own directory:
`Path(__file__).parent / 'scripts' / script_name`. -/
def fallback_path (env : Env) (script_name : String) : String :=
  env.module_dir ++ "/scripts/" ++ script_name

/-- `get_script_path`: try the packaged-resource path first (when the
resource machinery is available at all — an `ImportError` /
`AttributeError` / `FileNotFoundError` inside the `try` is modelled by
`resource_root = none`); otherwise fall back to the module-relative path;
if neither is an existing regular file, fail with `FileNotFoundError`
carrying the script name. -/
def get_script_path (env : Env) (script_name : String) :
    Except FileNotFoundError String :=
  match env.resource_root with
  | some root =>
      if env.fs_is_file (resource_path root script_name) then
        Except.ok (resource_path root script_name)
      else if env.fs_is_file (fallback_path env script_name) then
        Except.ok (fallback_path env script_name)
      else
        Except.error ⟨script_name⟩
  | none =>
      if env.fs_is_file (fallback_path env script_name) then
        Except.ok (fallback_path env script_name)
      else
        Except.error ⟨script_name⟩

/-- Errors escaping `run_script`: the locator's `FileNotFoundError`, or
`subprocess.CalledProcessError` carrying the child's exit code and the
command that was run. -/
inductive RunError where
  | fileNotFound (e : FileNotFoundError)
  | calledProcess (returncode : Nat) (cmd : List String)
deriving DecidableEq

/-- Observable side effects of `run_script`: the best-effort `chmod`
attempt (recording whether it succeeded), and the spawning of the child
process with its full command line. -/
inductive Effect where
  | chmodAttempted (ok : Bool)
  | spawned (cmd : List String)
deriving DecidableEq

/-- `run_script`: resolve the script path, attempt `os.chmod` (a failure
is caught and ignored — note the result below never depends on
`env.chmod_ok`), build `cmd = [script_path] + args`, and run it with
`check=True`, so a non-zero child exit code becomes a
`CalledProcessError` carrying exactly that code.  Returns the trace of
effects together with the Python-level result. -/
def run_script (env : Env) (script_name : String) (args : List String) :
    List Effect × Except RunError Nat :=
  match get_script_path env script_name with
  | Except.error e => ([], Except.error (RunError.fileNotFound e))
  | Except.ok script_path =>
      let cmd := script_path :: args
      let code := env.child_exit script_path args
      ([Effect.chmodAttempted env.chmod_ok, Effect.spawned cmd],
       if code = 0 then Except.ok code
       else Except.error (RunError.calledProcess code cmd))

/-- The usage text, exactly as in the source (`print(USAGE, end="")`
prints it verbatim). -/
def USAGE : String :=
  "Usage: repos <command> [options]\n\nCommands:\n  setup    Clone and configure repositories from a repos.list file\n  run      Execute a script inside each cloned repository\n\nRun 'repos <command> --help' for more information on a command.\n"

/-- The fixed subcommand table `SUBCOMMAND_SCRIPTS`. -/
def SUBCOMMAND_SCRIPTS (sub : String) : Option String :=
  if sub = "setup" then some "setup-repos.sh"
  else if sub = "run" then some "run-pipeline.sh"
  else none

/-- Outcome of one CLI invocation: the lines printed to standard output
and to standard error, and the process exit code. -/
structure MainResult where
  stdout : List String
  stderr : List String
  code : Nat
deriving DecidableEq

/-- `main`, applied to `sys.argv[1:]`.  With no arguments it prints the
usage text (plain `print`, so to standard output) and exits 1; with `-h`
or `--help` first it prints the usage text to standard output and exits 0;
an unknown subcommand prints an error plus usage to standard error and
exits 1; otherwise it delegates to `run_script` and translates the
result: success exits 0, `CalledProcessError` re-raises the child's exact
exit code, `FileNotFoundError` prints the error and exits 1. -/
def main (env : Env) (args : List String) : MainResult :=
  match args with
  | [] => ⟨[USAGE], [], 1⟩
  | subcommand :: remaining =>
      if subcommand = "-h" ∨ subcommand = "--help" then ⟨[USAGE], [], 0⟩
      else
        match SUBCOMMAND_SCRIPTS subcommand with
        | none =>
            ⟨[], ["Error: unknown command '" ++ subcommand ++ "'\n", USAGE], 1⟩
        | some script =>
            match (run_script env script remaining).2 with
            | Except.ok _ => ⟨[], [], 0⟩
            | Except.error (RunError.calledProcess n _) => ⟨[], [], n⟩
            | Except.error (RunError.fileNotFound e) =>
                ⟨[], ["Error: Cannot find " ++ e.script_name ++ ". Make sure the package is properly installed."], 1⟩

/-- An environment in which nothing resolves; `main` with no arguments or
a help flag never consults the environment, so any concrete one serves. -/
def env0 : Env where
  resource_root := none
  fs_is_file := fun _ => false
  module_dir := "/mod"
  chmod_ok := true
  child_exit := fun _ _ => 0

/-- An environment whose packaged-resource lookup finds
`setup-repos.sh` and whose child process always exits with code 7. -/
def env7 : Env where
  resource_root := some "/pkg"
  fs_is_file := fun p => p == "/pkg/scripts/setup-repos.sh"
  module_dir := "/mod"
  chmod_ok := true
  child_exit := fun _ _ => 7

/-- Counting helper for the repeat-flag convention: when no element of
`ds` is itself the token `-d`, the devcontainer segment contains the flag
exactly `ds.length` times. -/
theorem count_d_flatMap (ds : List String) (hd : "-d" ∉ ds) :
    List.count (PyVal.str "-d")
      (ds.flatMap (fun dc => [PyVal.str "-d", PyVal.str dc])) = ds.length := by
  induction ds with
  | nil => simp
  | cons d t ih =>
      simp only [List.mem_cons, not_or] at hd
      simp only [List.flatMap_cons, List.count_append, List.count_cons,
        List.count_nil, ih hd.2, List.length_cons]
      have hne : ¬ (PyVal.str d = PyVal.str "-d") := by
        intro h
        exact hd.1 (by injection h with h; exact h.symm)
      simp [hne]
      omega

/-- C3: the setup builder's `devcontainer` list follows the repeat-flag
convention — each element yields a `-d` token immediately followed by that
element, in input order, so (when no element is itself `-d`) the flag
occurs exactly N times — while the run builder's `incl` and `excl` lists
follow the join convention: a single `-i` (resp. `-e`) token followed by
one value, the elements joined with commas. -/
theorem multivalue_conventions (ds l1 l2 : List String) (hd : "-d" ∉ ds) :
    setup { devcontainer := some (Sum.inr ds) } []
      = ds.flatMap (fun dc => [PyVal.str "-d", PyVal.str dc])
    ∧ List.count (PyVal.str "-d") (setup { devcontainer := some (Sum.inr ds) } [])
      = ds.length
    ∧ run { incl := some (Sum.inr l1) } []
      = [PyVal.str "-i", PyVal.str (String.intercalate "," l1)]
    ∧ run { excl := some (Sum.inr l2) } []
      = [PyVal.str "-e", PyVal.str (String.intercalate "," l2)] := by
  have h1 : setup { devcontainer := some (Sum.inr ds) } []
      = ds.flatMap (fun dc => [PyVal.str "-d", PyVal.str dc]) := by
    simp [setup]
  refine ⟨h1, ?_, by simp [run], by simp [run]⟩
  rw [h1]
  exact count_d_flatMap ds hd

/-- C3 witness: the conventions evaluated at concrete lists. -/
theorem multivalue_conventions_witness :
    ("-d" ∉ (["path1", "path2"] : List String))
    ∧ (setup { devcontainer := some (Sum.inr ["path1", "path2"]) } []
        = (["path1", "path2"] : List String).flatMap
            (fun dc => [PyVal.str "-d", PyVal.str dc])
      ∧ List.count (PyVal.str "-d")
          (setup { devcontainer := some (Sum.inr ["path1", "path2"]) } []) = 2
      ∧ run { incl := some (Sum.inr ["repo1", "repo2"]) } []
        = [PyVal.str "-i", PyVal.str (String.intercalate "," ["repo1", "repo2"])]
      ∧ run { excl := some (Sum.inr ["repo3"]) } []
        = [PyVal.str "-e", PyVal.str (String.intercalate "," ["repo3"])]) :=
  ⟨by decide,
   multivalue_conventions ["path1", "path2"] ["repo1", "repo2"] ["repo3"] (by decide)⟩

/-- C4: every boolean parameter of the two builders contributes nothing
when left at its default `false`, and exactly one bare flag token — with
no value token after it — when set `true`; shown with the other
parameters at their defaults, where the argv tail is exactly that flag. -/
theorem boolean_flag_conventions :
    (∀ b : Bool, setup { public := b } []
      = if b then [PyVal.str "--public"] else [])
    ∧ (∀ b : Bool, setup { codespaces := b } []
      = if b then [PyVal.str "--codespaces"] else [])
    ∧ (∀ b : Bool, setup { debug := b } []
      = if b then [PyVal.str "--debug"] else [])
    ∧ (∀ b : Bool, run { ensure_setup := b } []
      = if b then [PyVal.str "--ensure-setup"] else [])
    ∧ (∀ b : Bool, run { skip_deps := b } []
      = if b then [PyVal.str "-d"] else [])
    ∧ (∀ b : Bool, run { dry_run := b } []
      = if b then [PyVal.str "-n"] else [])
    ∧ (∀ b : Bool, run { verbose := b } []
      = if b then [PyVal.str "-v"] else [])
    ∧ (∀ b : Bool, run { continue_on_error := b } []
      = if b then [PyVal.str "--continue-on-error"] else []) := by
  refine ⟨?_, ?_, ?_, ?_, ?_, ?_, ?_, ?_⟩ <;> intro b <;> cases b <;> rfl

/-- C5: the setup builder's `debug_file` parameter emits only the
`--debug-file` flag when given the trigger value `True`, the flag followed
by the value when given an explicit string, and nothing when unset. -/
theorem debug_file_dual_mode (s : String) :
    setup { debug_file := some (Sum.inl true) } [] = [PyVal.str "--debug-file"]
    ∧ setup { debug_file := some (Sum.inr s) } []
      = [PyVal.str "--debug-file", PyVal.str s]
    ∧ setup { debug_file := none } [] = [] :=
  ⟨rfl, rfl, rfl⟩

/-- C6: for every parameter assignment, the trailing raw arguments appear
after all named-option-derived tokens, in input order and unmodified: the
argv tail is the named-option tail followed by the raw list itself. -/
theorem raw_args_appended (c : SetupConfig) (r : RunConfig) (raw : List PyVal) :
    setup c raw = setup c [] ++ raw ∧ run r raw = run r [] ++ raw := by
  constructor <;> simp [setup, run, List.append_assoc]

/-- C9: the argument builders are deterministic functions of their
inputs — two calls with identical parameter values produce identical
argv token sequences. -/
theorem builders_deterministic (c1 c2 : SetupConfig) (r1 r2 : RunConfig)
    (a1 a2 : List PyVal) (hc : c1 = c2) (hr : r1 = r2) (ha : a1 = a2) :
    setup c1 a1 = setup c2 a2 ∧ run r1 a1 = run r2 a2 := by
  subst hc hr ha
  exact ⟨rfl, rfl⟩

/-- C9 witness: determinism at a concrete parameter assignment. -/
theorem builders_deterministic_witness :
    setup { public := true } [PyVal.str "x"] = setup { public := true } [PyVal.str "x"]
    ∧ run { verbose := true } [PyVal.str "x"] = run { verbose := true } [PyVal.str "x"] :=
  builders_deterministic { public := true } { public := true }
    { verbose := true } { verbose := true } [PyVal.str "x"] [PyVal.str "x"] rfl rfl rfl

/-- C10: `debug_file` explicitly set to the Python value `False` is not
treated as unset — the builder emits the `--debug-file` token immediately
followed by the raw boolean value `False` (only `None` means unset and
only `True` is the bare trigger). -/
theorem debug_file_false_not_omitted :
    setup { debug_file := some (Sum.inl false) } []
      = [PyVal.str "--debug-file", PyVal.bool false] :=
  rfl

/-- An environment where the resource machinery is unavailable and only
the module-relative fallback path for `a.sh` exists. -/
def envF : Env where
  resource_root := none
  fs_is_file := fun p => p == "/mod/scripts/a.sh"
  module_dir := "/mod"
  chmod_ok := true
  child_exit := fun _ _ => 0

/-- C1 (counterexample): the claim says that with no arguments the
dispatch prints the usage text to standard error; in the code both the
no-argument case and the help case go through the same plain `print`, so
at the concrete no-argument invocation standard error is empty and the
usage text goes to standard output (the exit code 1 part does hold). -/
theorem usage_stderr_counterexample :
    USAGE ∉ (main env0 []).stderr
    ∧ (main env0 []).stderr = []
    ∧ (main env0 []).stdout = [USAGE]
    ∧ (main env0 []).code = 1 := by
  refine ⟨?_, rfl, rfl, rfl⟩
  simp [main]

/-- C1 (amended): with no arguments the dispatch prints the usage text to
standard output — not standard error — and exits with code 1; with `-h` or
`--help` as the first argument it prints the usage text to standard output
and exits with code 0. -/
theorem usage_exit_codes (env : Env) :
    main env [] = ⟨[USAGE], [], 1⟩
    ∧ (∀ rest, main env ("-h" :: rest) = ⟨[USAGE], [], 0⟩)
    ∧ (∀ rest, main env ("--help" :: rest) = ⟨[USAGE], [], 0⟩) := by
  refine ⟨rfl, ?_, ?_⟩ <;> intro rest <;> simp [main]

/-- C2: whenever the delegated child script exits with a non-zero code
`n`, the dispatch terminates with exit code exactly `n`, never a generic
1: `run_script` raises `CalledProcessError` carrying `n` and `main`
re-raises it as the process exit code. -/
theorem child_exit_code_passthrough (env : Env) (sub script p : String)
    (rem : List String) (n : Nat)
    (hsub : SUBCOMMAND_SCRIPTS sub = some script)
    (hpath : get_script_path env script = Except.ok p)
    (hexit : env.child_exit p rem = n)
    (hn : n ≠ 0) :
    (main env (sub :: rem)).code = n := by
  have hh : ¬ (sub = "-h" ∨ sub = "--help") := by
    rintro (h | h) <;> subst h <;> simp [SUBCOMMAND_SCRIPTS] at hsub
  simp only [main, if_neg hh, hsub]
  simp only [run_script, hpath, hexit, if_neg hn]

/-- C2 witness: a child exiting with code 7 makes the dispatch exit 7. -/
theorem child_exit_code_passthrough_witness :
    (main env7 ["setup"]).code = 7 :=
  child_exit_code_passthrough env7 "setup" "setup-repos.sh"
    "/pkg/scripts/setup-repos.sh" [] 7 rfl rfl rfl (by decide)

/-- C7: the locator first tries the packaged-resource path under the fixed
`scripts` subdirectory and returns it when it is an existing regular file;
when the resource lookup is unavailable or its path is not a file, it
returns the module-relative path under the same subdirectory when that one
is a file; when neither is, it fails with a not-found error carrying the
attempted script name. -/
theorem locator_resolution_order (env : Env) (name root : String) :
    (env.resource_root = some root →
      env.fs_is_file (resource_path root name) = true →
      get_script_path env name = Except.ok (resource_path root name))
    ∧ ((env.resource_root = none
        ∨ (env.resource_root = some root
            ∧ env.fs_is_file (resource_path root name) = false)) →
      env.fs_is_file (fallback_path env name) = true →
      get_script_path env name = Except.ok (fallback_path env name))
    ∧ ((env.resource_root = none
        ∨ (env.resource_root = some root
            ∧ env.fs_is_file (resource_path root name) = false)) →
      env.fs_is_file (fallback_path env name) = false →
      get_script_path env name = Except.error ⟨name⟩) := by
  refine ⟨?_, ?_, ?_⟩
  · intro hroot hres
    simp [get_script_path, hroot, hres]
  · intro hcase hfb
    rcases hcase with hroot | ⟨hroot, hres⟩
    · simp [get_script_path, hroot, hfb]
    · simp [get_script_path, hroot, hres, hfb]
  · intro hcase hfb
    rcases hcase with hroot | ⟨hroot, hres⟩
    · simp [get_script_path, hroot, hfb]
    · simp [get_script_path, hroot, hres, hfb]

/-- C7 witness: the three branches of the resolution order evaluated in
concrete environments — resource hit, fallback hit, and not found. -/
theorem locator_resolution_order_witness :
    get_script_path env7 "setup-repos.sh"
      = Except.ok (resource_path "/pkg" "setup-repos.sh")
    ∧ get_script_path envF "a.sh" = Except.ok (fallback_path envF "a.sh")
    ∧ get_script_path env0 "x.sh" = Except.error ⟨"x.sh"⟩ :=
  ⟨(locator_resolution_order env7 "setup-repos.sh" "/pkg").1 rfl rfl,
   (locator_resolution_order envF "a.sh" "/pkg").2.1 (Or.inl rfl) rfl,
   (locator_resolution_order env0 "x.sh" "/pkg").2.2 (Or.inl rfl) rfl⟩

/-- C8: a failure to mark the resolved script executable is swallowed:
when the script path resolves and the chmod fails, the child is still
spawned with the full command line, and the overall result is exactly the
one obtained when the chmod succeeds. -/
theorem chmod_failure_swallowed (env : Env) (name p : String)
    (args : List String)
    (hpath : get_script_path env name = Except.ok p)
    (_hch : env.chmod_ok = false) :
    Effect.spawned (p :: args) ∈ (run_script env name args).1
    ∧ (run_script env name args).2
      = (run_script { env with chmod_ok := true } name args).2 := by
  have hpath' : get_script_path { env with chmod_ok := true } name
      = Except.ok p := by
    simpa [get_script_path, fallback_path] using hpath
  constructor
  · simp [run_script, hpath]
  · simp [run_script, hpath, hpath']

/-- C8 witness: in a concrete environment where the chmod fails, the
spawn still happens and the result equals the chmod-succeeding run. -/
theorem chmod_failure_swallowed_witness :
    Effect.spawned ["/pkg/scripts/setup-repos.sh"]
      ∈ (run_script { env7 with chmod_ok := false } "setup-repos.sh" []).1
    ∧ (run_script { env7 with chmod_ok := false } "setup-repos.sh" []).2
      = (run_script { { env7 with chmod_ok := false } with chmod_ok := true }
          "setup-repos.sh" []).2 :=
  chmod_failure_swallowed { env7 with chmod_ok := false } "setup-repos.sh"
    "/pkg/scripts/setup-repos.sh" [] rfl rfl

end Repos
